import Mathlib

/-!
Verification of the heart-sound experiment orchestrator
(`src/tasks/experiment.py`) against its natural-language specification.

The file shallowly embeds the pure/deterministic core of the script:
the audio loader closure `set_load_func`, the label mappers, the two
manifest builders, the cross-validation runner `cv_experiment`, and the
grid-orchestrator `__main__` loop.  External collaborators (librosa
decode, `Preprocessor`, `ManualDataSet`, dataloaders, `BaseModelManager`,
`TrainManager`) are treated as oracles, exactly as the spec declares them
black boxes.  Waveform samples and metric values are modelled as
rationals; machine floats never enter an arithmetic operation in the
embedded code paths except through those oracles.
-/

namespace HeartSoundMachine

/-! ## Audio loader — `set_load_func` (experiment.py lines 41-52) -/

/-- `np.pad(xs, n)` with numpy's default `constant` mode: `n` zero
samples prepended and `n` zero samples appended. -/
def np_pad (n : Nat) (xs : List ℚ) : List ℚ :=
  List.replicate n 0 ++ xs ++ List.replicate n 0

/-- Shallow embedding of the closure returned by
`set_load_func(sr, one_audio_sec)`.  The decoded waveform
(`load(path[0], sr=sr)[0]`) is the input list; the result of
`wave.reshape((1, -1))` is the returned singleton list of rows. -/
def set_load_func (sr one_audio_sec : Nat) (wave : List ℚ) : List (List ℚ) :=
  let const_length := sr * one_audio_sec
  let wave' :=
    if const_length < wave.length then wave.take const_length
    else if wave.length < const_length then
      let n_pad := (const_length - wave.length) / 2 + 1
      (np_pad n_pad (wave.take const_length)).take const_length
    else wave
  [wave']

/-- Modelled from the spec: the padding policy exactly as §4.1 words it —
pad `(target_len - len)//2 + 1` samples on both sides (symmetric padding
semantics), then truncate to the exact target length.  Stated separately
from `set_load_func` so the loader can be proved to refine it. -/
def specCenterPadTruncate (T : Nat) (w : List ℚ) : List ℚ :=
  (List.replicate ((T - w.length) / 2 + 1) 0 ++ w ++
    List.replicate ((T - w.length) / 2 + 1) 0).take T

theorem np_pad_take (T n : Nat) (w : List ℚ) (h1 : n + w.length ≤ T)
    (h2 : T ≤ n + w.length + n) :
    (np_pad n w).take T =
      List.replicate n 0 ++ w ++ List.replicate (T - n - w.length) 0 := by
  have hlen : (List.replicate n (0 : ℚ) ++ w).length = n + w.length := by
    simp
  rw [np_pad, List.take_append_eq_append_take,
    List.take_of_length_le (by rw [hlen]; omega), hlen, List.take_replicate]
  have hmin : (T - (n + w.length)) ⊓ n = T - n - w.length := by omega
  rw [hmin]

theorem load_row_length (sr one_audio_sec : Nat) (wave : List ℚ) :
    ∀ row ∈ set_load_func sr one_audio_sec wave,
      row.length = sr * one_audio_sec := by
  intro row hrow
  unfold set_load_func at hrow
  simp only [List.mem_singleton] at hrow
  subst hrow
  split
  · rw [List.length_take]; omega
  · split
    · simp only [np_pad, List.length_take, List.length_append,
        List.length_replicate]
      omega
    · omega

/-- C3: for every decoded waveform, whatever its length `L` relative to the
target `T = sample_rate × duration`, the loader returns a single-row array
of exactly `T` samples, and when `L ≥ T` the output row equals the first
`T` input samples. -/
theorem C3_load_func_shape (sr one_audio_sec : Nat) (wave : List ℚ) :
    (set_load_func sr one_audio_sec wave).length = 1 ∧
    (∀ row ∈ set_load_func sr one_audio_sec wave,
      row.length = sr * one_audio_sec) ∧
    (sr * one_audio_sec ≤ wave.length →
      set_load_func sr one_audio_sec wave =
        [wave.take (sr * one_audio_sec)]) := by
  refine ⟨rfl, load_row_length sr one_audio_sec wave, ?_⟩
  intro hge
  simp only [set_load_func]
  split
  · rfl
  · split
    · omega
    · rw [List.take_of_length_le (by omega)]

/-- Witness for `C3_load_func_shape` at a concrete over-length waveform. -/
theorem C3_load_func_shape_witness :
    set_load_func 2 3 [1, 2, 3, 4, 5, 6, 7] = [[1, 2, 3, 4, 5, 6]] := by
  have h := (C3_load_func_shape 2 3 [1, 2, 3, 4, 5, 6, 7]).2.2 (by norm_num)
  simpa using h

/-- C2: for a decoded waveform strictly shorter than the target length
`T = sample_rate × duration`, the loader's output equals the input padded
with `(T - L)//2 + 1` zero samples on each side (symmetric padding
semantics) and then truncated to exactly `T` samples, exactly as the
spec's padding policy (`specCenterPadTruncate`) words it. -/
theorem C2_load_func_pad_policy (sr one_audio_sec : Nat) (wave : List ℚ)
    (h : wave.length < sr * one_audio_sec) :
    set_load_func sr one_audio_sec wave =
      [specCenterPadTruncate (sr * one_audio_sec) wave] ∧
    (specCenterPadTruncate (sr * one_audio_sec) wave).length =
      sr * one_audio_sec := by
  constructor
  · simp only [set_load_func, specCenterPadTruncate]
    split
    · omega
    · rw [List.take_of_length_le
        (show wave.length ≤ sr * one_audio_sec by omega)]
      rfl
  · unfold specCenterPadTruncate
    simp only [List.length_take, List.length_append, List.length_replicate]
    omega

/-- Witness for `C2_load_func_pad_policy`: `T = 6`, `L = 3`, so
`n_pad = (6-3)//2 + 1 = 2`. -/
theorem C2_load_func_pad_policy_witness :
    set_load_func 2 3 [5, 6, 7] = [[0, 0, 5, 6, 7, 0]] := by
  have h := (C2_load_func_pad_policy 2 3 [5, 6, 7] (by norm_num)).1
  rw [h]
  rfl

/-- C10: for `0 < L < T` the output row is exactly `(T-L)//2 + 1` zeros,
then all `L` original samples contiguously and unmodified, then
`T - L - ((T-L)//2 + 1)` zeros; the leading zero run exceeds the trailing
one by 1 when `T - L` is odd and by 2 when `T - L` is even. -/
theorem C10_load_func_zero_runs (sr one_audio_sec : Nat) (wave : List ℚ)
    (h0 : 0 < wave.length) (h : wave.length < sr * one_audio_sec) :
    set_load_func sr one_audio_sec wave =
      [List.replicate ((sr * one_audio_sec - wave.length) / 2 + 1) 0 ++ wave ++
        List.replicate (sr * one_audio_sec - wave.length -
          ((sr * one_audio_sec - wave.length) / 2 + 1)) 0] ∧
    ((sr * one_audio_sec - wave.length) % 2 = 1 →
      (sr * one_audio_sec - wave.length) / 2 + 1 =
        (sr * one_audio_sec - wave.length -
          ((sr * one_audio_sec - wave.length) / 2 + 1)) + 1) ∧
    ((sr * one_audio_sec - wave.length) % 2 = 0 →
      (sr * one_audio_sec - wave.length) / 2 + 1 =
        (sr * one_audio_sec - wave.length -
          ((sr * one_audio_sec - wave.length) / 2 + 1)) + 2) := by
  refine ⟨?_, by omega, by omega⟩
  simp only [set_load_func]
  split
  · omega
  · rw [List.take_of_length_le
      (show wave.length ≤ sr * one_audio_sec by omega),
      np_pad_take _ _ _ (by omega) (by omega)]
    have hsub : sr * one_audio_sec - ((sr * one_audio_sec - wave.length) / 2 + 1) -
        wave.length =
        sr * one_audio_sec - wave.length -
          ((sr * one_audio_sec - wave.length) / 2 + 1) := by
      omega
    rw [hsub]

/-- Witness for `C10_load_func_zero_runs`: `T = 6`, `L = 3`, `T - L = 3`
odd, leading run 2, trailing run 1. -/
theorem C10_load_func_zero_runs_witness :
    set_load_func 2 3 [5, 6, 7] =
      [List.replicate 2 (0 : ℚ) ++ [5, 6, 7] ++ List.replicate 1 0] ∧
    (2 : Nat) = 1 + 1 := by
  have h := C10_load_func_zero_runs 2 3 [5, 6, 7] (by norm_num) (by norm_num)
  exact ⟨h.1, h.2.1 (by norm_num)⟩

/-! ## Label mappers (experiment.py lines 32-38) -/

/-- `hss_label_func(row)` returns `row[1]` (the raw label cell) unchanged. -/
def hss_label_func (row : String × String) : String := row.2

/-- `cinc_label_func(row)` looks `row[1]` up in the dict
`{'Normal': 0, 'Abnormal': 1}`; a missing key raises `KeyError`,
modelled as `.error`. -/
def cinc_label_func (row : String × String) : Except String Nat :=
  let converter : List (String × Nat) := [("Normal", 0), ("Abnormal", 1)]
  match converter.lookup row.2 with
  | some v => .ok v
  | none => .error ("KeyError: " ++ row.2)

/-- C7: the Family B label mapper maps `"Normal"` to 0 and `"Abnormal"`
to 1, and for every other label string it raises a fatal `KeyError`
instead of returning a value. -/
theorem C7_cinc_label_vocabulary (p s : String)
    (h1 : s ≠ "Normal") (h2 : s ≠ "Abnormal") :
    cinc_label_func (p, "Normal") = .ok 0 ∧
    cinc_label_func (p, "Abnormal") = .ok 1 ∧
    cinc_label_func (p, s) = .error ("KeyError: " ++ s) := by
  refine ⟨rfl, rfl, ?_⟩
  have e1 : (s == "Normal") = false := by simp [h1]
  have e2 : (s == "Abnormal") = false := by simp [h2]
  simp [cinc_label_func, List.lookup, e1, e2]

/-- Witness for `C7_cinc_label_vocabulary` at the unmapped label
`"Murmur"`. -/
theorem C7_cinc_label_vocabulary_witness :
    cinc_label_func ("a.wav", "Normal") = .ok 0 ∧
    cinc_label_func ("a.wav", "Abnormal") = .ok 1 ∧
    cinc_label_func ("a.wav", "Murmur") = .error ("KeyError: " ++ "Murmur") :=
  C7_cinc_label_vocabulary "a.wav" "Murmur" (by decide) (by decide)

/-! ## Manifest builder, Family A — `create_hss_manifest`
(experiment.py lines 55-92, hard-coded `db = '1'` branch; the
`db == '1.5'` branch is dead code) -/

/-- Does `s` start with the pattern `pat` (both as code-point lists)? -/
def charListStarts : List Char → List Char → Bool
  | [], _ => true
  | _ :: _, [] => false
  | a :: as, b :: bs => a == b && charListStarts as bs

/-- Does `pat` occur as a contiguous substring of `s`? -/
def charListHasSub (pat : List Char) : List Char → Bool
  | [] => charListStarts pat []
  | c :: rest => charListStarts pat (c :: rest) || charListHasSub pat rest

/-- Python substring test `pat in s`. -/
def strContains (s pat : String) : Bool :=
  charListHasSub pat.data s.data

/-- Lexicographic code-point comparison of two strings, the order Python
uses to compare `str` values. -/
def charListLe : List Char → List Char → Bool
  | [], _ => true
  | _ :: _, [] => false
  | a :: as, b :: bs =>
    if a == b then charListLe as bs else Nat.blt a.toNat b.toNat

def strLe (a b : String) : Bool := charListLe a.data b.data

/-- `list.sort()` on path strings: lexicographic by code point, stable. -/
def sortStr (l : List String) : List String :=
  l.insertionSort (fun a b => strLe a b = true)

/-- `dic[phase]`: the sorted list of wav-directory entries whose file
name contains the phase name as a substring. -/
def hssPhaseFiles (wavFiles : List String) (phase : String) : List String :=
  sortStr (wavFiles.filter (fun n => strContains n phase))

/-- Outcome of a run of `create_hss_manifest`: the per-phase manifests
persisted so far (in write order) and the fatal error, if one was
raised.  Pandas raises `ValueError` when a list assigned to a dataframe
column does not match the row count, and the source has an explicit
`assert` for the `devel` phase. -/
structure HssBuild where
  written : List (String × List (List String))
  error : Option String
deriving DecidableEq

/-- Shallow embedding of `create_hss_manifest` (`db = '1'` branch).
Inputs: the wav-directory file names, the rows of `labels_train_dev.tsv`,
and the rows of `labels_test.txt`.  `train = train_dev_label.iloc[:n]`,
`val = train_dev_label.iloc[n:]` with `n = len(dic['train'])`; column
assignment fails fatally on a length mismatch, and each phase is
persisted immediately after its columns are attached. -/
def create_hss_manifest (wavFiles : List String)
    (trainDevLabel testLabel : List (List String)) : HssBuild :=
  let dicTrain := hssPhaseFiles wavFiles "train"
  let dicDevel := hssPhaseFiles wavFiles "devel"
  let dicTest := hssPhaseFiles wavFiles "test"
  let trainRows := trainDevLabel.take dicTrain.length
  if (trainDevLabel.take dicTrain.length).length ≠ dicTrain.length then
    { written := [],
      error := some "ValueError: Length of values does not match length of index" }
  else
    let trainManifest := (trainRows.zip dicTrain).map (fun r => r.1 ++ [r.2])
    let valRows := trainDevLabel.drop dicTrain.length
    if (trainDevLabel.drop dicTrain.length).length ≠ dicDevel.length then
      { written := [("train", trainManifest)], error := some "AssertionError" }
    else
      let valManifest := (valRows.zip dicDevel).map (fun r => r.1 ++ [r.2])
      if testLabel.length ≠ dicTest.length then
        { written := [("train", trainManifest), ("val", valManifest)],
          error := some "ValueError: Length of values does not match length of index" }
      else
        let testManifest := (testLabel.zip dicTest).map
          (fun r => r.2 :: r.1.drop 1)
        { written := [("train", trainManifest), ("val", valManifest),
            ("test", testManifest)],
          error := none }

/-- Per-phase count mismatch: discovered audio files for the phase
versus the label rows assigned to that phase by `create_hss_manifest`. -/
def hssMismatch (wavFiles : List String)
    (trainDevLabel testLabel : List (List String)) (p : String) : Bool :=
  if p = "train" then
    (trainDevLabel.take (hssPhaseFiles wavFiles "train").length).length
      != (hssPhaseFiles wavFiles "train").length
  else if p = "val" then
    (trainDevLabel.drop (hssPhaseFiles wavFiles "train").length).length
      != (hssPhaseFiles wavFiles "devel").length
  else if p = "test" then
    testLabel.length != (hssPhaseFiles wavFiles "test").length
  else false

/-- C6: for every phase of the Family A manifest build, if the number of
discovered audio files for the phase differs from the number of label
rows assigned to it, the build raises a fatal error and that phase's
manifest is never persisted. -/
theorem C6_hss_count_guard (wavFiles : List String)
    (trainDevLabel testLabel : List (List String)) (p : String)
    (hp : p ∈ ["train", "val", "test"])
    (hm : hssMismatch wavFiles trainDevLabel testLabel p = true) :
    (create_hss_manifest wavFiles trainDevLabel testLabel).error.isSome = true ∧
    ∀ e ∈ (create_hss_manifest wavFiles trainDevLabel testLabel).written,
      e.1 ≠ p := by
  simp only [List.mem_cons, List.not_mem_nil, or_false] at hp
  rcases hp with rfl | rfl | rfl <;>
    simp only [hssMismatch, if_true, if_neg, reduceIte, bne_iff_ne] at hm <;>
      simp only [create_hss_manifest] <;> split_ifs <;>
        simp_all [List.mem_cons]

/-- Witness for `C6_hss_count_guard`: two discovered train files but only
one train+devel label row, so the train-phase assignment fails before
anything is written. -/
theorem C6_hss_count_guard_witness :
    (create_hss_manifest ["a_train", "b_train"] [["0"]] []).error.isSome = true ∧
    ∀ e ∈ (create_hss_manifest ["a_train", "b_train"] [["0"]] []).written,
      e.1 ≠ "train" :=
  C6_hss_count_guard ["a_train", "b_train"] [["0"]] [] "train"
    (by decide) (by decide)

/-! ## Manifest builder, Family B — `create_cinc_manifest`
(experiment.py lines 95-114) -/

/-- `name[:-4]`: the file name with its 4-character extension removed. -/
def stem4 (s : String) : String :=
  ⟨s.data.take (s.data.length - 4)⟩

/-- Python `s.startswith(p)`. -/
def strStarts (s p : String) : Bool :=
  charListStarts p.data s.data

/-- Python `s.endswith(p)`. -/
def strEnds (s p : String) : Bool :=
  charListStarts p.data.reverse s.data.reverse

/-- The longest prefix of `s` strictly before the first occurrence of
`sep` (all of `s` when `sep` does not occur). -/
def beforeFirst (sep : List Char) : List Char → List Char
  | [] => []
  | c :: rest =>
    if charListStarts sep (c :: rest) then [] else c :: beforeFirst sep rest

/-- The suffix of `s` after the last occurrence of `sep` (all of `s` when
`sep` does not occur). -/
def afterLast (sep s : List Char) : List Char :=
  (beforeFirst sep.reverse s.reverse).reverse

/-- `f.read().split('# ')[-1].replace('\n', '')`: the text after the last
occurrence of the marker `"# "` — the marker is borderless, so Python's
left-to-right split and the last-occurrence suffix agree — with newline
characters removed. -/
def extractLabel (content : String) : String :=
  ⟨(afterLast "# ".data content.data).filter (fun c => c != Char.ofNat 10)⟩

/-- `pd.DataFrame([col0, col1]).T` as (path, label) rows: pandas pads the
shorter list with `NaN` (modelled as `none`), so the row count is the
longer of the two lengths. -/
def dfRows (col0 col1 : List String) : List (Option String × Option String) :=
  (List.range (max col0.length col1.length)).map
    (fun i => (col0.get? i, col1.get? i))

/-- `head_paths`: all `.hea` entries of the `training-*` folders, sorted. -/
def cincHeads (folders : List (String × List String)) : List String :=
  sortStr ((folders.filter (fun f => strStarts f.1 "training-")).flatMap
    (fun f => f.2.filter (fun n => strEnds n ".hea")))

/-- `wav_paths`: all `.wav` entries of the `training-*` folders, sorted. -/
def cincWavs (folders : List (String × List String)) : List String :=
  sortStr ((folders.filter (fun f => strStarts f.1 "training-")).flatMap
    (fun f => f.2.filter (fun n => strEnds n ".wav")))

/-- Shallow embedding of `create_cinc_manifest`.  Inputs: the `cinc` data
directory as (folder name, entry names) pairs and the contents of each
header file.  The loop `for head, wav in zip(head_paths, wav_paths)`
asserts equal base names pair by pair (fatal `AssertionError` on the
first mismatch, before anything is persisted); on success
`pd.DataFrame([wav_paths, labels]).T` is persisted as the manifest. -/
def create_cinc_manifest (folders : List (String × List String))
    (content : String → String) :
    Except String (List (Option String × Option String)) :=
  let headPaths := cincHeads folders
  let wavPaths := cincWavs folders
  if (headPaths.zip wavPaths).all (fun p => stem4 p.1 == stem4 p.2) then
    let labels := (headPaths.zip wavPaths).map
      (fun p => extractLabel (content p.1))
    .ok (dfRows wavPaths labels)
  else
    .error "AssertionError"

/-- C9 counterexample: with one header file and two wav files (the formed
pair matching), the build succeeds and the trailing unmatched wav file is
emitted in the manifest with an empty label — it is not silently dropped,
refuting the claim that output stops at the shorter length. -/
theorem C9_counterexample_unmatched_wav_emitted :
    create_cinc_manifest [("training-a", ["a0001.hea", "a0001.wav", "a0002.wav"])]
        (fun _ => "a0001 2000\x0a# Normal\x0a") =
      .ok [(some "a0001.wav", some "Normal"), (some "a0002.wav", none)] ∧
    (cincHeads [("training-a", ["a0001.hea", "a0001.wav", "a0002.wav"])]).length = 1 ∧
    (cincWavs [("training-a", ["a0001.hea", "a0001.wav", "a0002.wav"])]).length = 2 := by
  refine ⟨?_, by decide, by decide⟩
  rfl

theorem dfRows_length (col0 col1 : List String) :
    (dfRows col0 col1).length = max col0.length col1.length := by
  simp [dfRows]

theorem dfRows_get (col0 col1 : List String) (i : Nat)
    (r : Option String × Option String)
    (h : (dfRows col0 col1).get? i = some r) : r.2 = col1.get? i := by
  unfold dfRows at h
  by_cases hlt : i < max col0.length col1.length
  · rw [List.get?_map, List.get?_range hlt] at h
    injection h with h
    rw [← h]
  · rw [List.get?_map, List.get?_eq_none.mpr (by simpa using hlt)] at h
    cases h

/-- C9 (amended): the Family B builder never compares the header and wav
file counts; it asserts base-name equality only pairwise over the zip of
the two sorted lists (up to the shorter length) and fails exactly when
some formed pair differs.  On success the manifest has one row per wav
file: rows beyond the zipped length — trailing unmatched wav files — are
emitted with an empty label, while trailing unmatched header files are
dropped. -/
theorem C9_cinc_pairing (folders : List (String × List String))
    (content : String → String) :
    ((create_cinc_manifest folders content).isOk = true ↔
      ∀ p ∈ (cincHeads folders).zip (cincWavs folders),
        stem4 p.1 = stem4 p.2) ∧
    (∀ rows, create_cinc_manifest folders content = .ok rows →
      rows.length = (cincWavs folders).length ∧
      ∀ i, min (cincHeads folders).length (cincWavs folders).length ≤ i →
        ∀ r, rows.get? i = some r → r.2 = none) := by
  simp only [create_cinc_manifest]
  split
  · rename_i hall
    simp only [List.all_eq_true, beq_iff_eq] at hall
    have hlab : (((cincHeads folders).zip (cincWavs folders)).map
        (fun p => extractLabel (content p.1))).length =
        min (cincHeads folders).length (cincWavs folders).length := by
      simp [List.length_zip]
    refine ⟨⟨fun _ => fun p hp => hall p hp, fun _ => rfl⟩, ?_⟩
    intro rows hrows
    injection hrows with hrows
    subst hrows
    constructor
    · rw [dfRows_length, hlab]
      omega
    · intro i hi r hr
      rw [dfRows_get _ _ _ _ hr]
      refine List.get?_eq_none.mpr ?_
      rw [hlab]
      omega
  · rename_i hall
    constructor
    · constructor
      · intro h; cases h
      · intro hforall
        exfalso
        apply hall
        simp only [List.all_eq_true, beq_iff_eq]
        exact hforall
    · intro rows hrows
      cases hrows

/-- Witness for `C9_cinc_pairing`: two headers, one wav, the single
formed pair matches, so the build succeeds despite the count mismatch. -/
theorem C9_cinc_pairing_witness :
    (create_cinc_manifest [("training-b", ["x1.hea", "x1.wav", "x2.hea"])]
      (fun _ => "# Abnormal\x0a")).isOk = true :=
  (C9_cinc_pairing [("training-b", ["x1.hea", "x1.wav", "x2.hea"])]
    (fun _ => "# Abnormal\x0a")).1.mpr (by decide)

/-! ## Cross-validation metric sets — `cv_experiment`
(experiment.py lines 177-189), object-identity model.

`metrics = {'train': deepcopy(train_val_metrics), 'val': train_val_metrics,
'test': test_metrics}`: each `Metric(...)` constructor call and each
`deepcopy` allocates fresh Python objects; `id` records the allocation
order (`train_val_metrics` first: 0-1, then `test_metrics`: 2-6, then the
`deepcopy` in the dict display: 7-8). -/

/-- A `Metric(...)` object: `id` is its Python object identity, the other
fields its constructor arguments. -/
structure MetricObj where
  id : Nat
  name : String
  direction : String
  save_model : Bool
deriving DecidableEq

/-- `train_val_metrics`: two fresh `Metric` objects. -/
def train_val_metrics : List MetricObj :=
  [⟨0, "loss", "minimize", true⟩, ⟨1, "uar", "maximize", false⟩]

/-- `test_metrics`: five further fresh `Metric` objects. -/
def test_metrics : List MetricObj :=
  [⟨2, "loss", "minimize", true⟩, ⟨3, "uar", "maximize", false⟩,
   ⟨4, "recall_1", "maximize", false⟩, ⟨5, "specificity", "maximize", false⟩,
   ⟨6, "f1", "maximize", false⟩]

/-- `copy.deepcopy` of a metric list: field-identical objects at fresh
identities `fresh`, `fresh + 1`, ... -/
def deepcopyMetrics (fresh : Nat) (ms : List MetricObj) : List MetricObj :=
  ms.enum.map (fun p => { p.2 with id := fresh + p.1 })

/-- The `metrics` dict built by `cv_experiment`: only the `train` entry is
a deep copy (fresh identities 7, 8); the `val` entry is the shared
template list object itself. -/
structure CvMetricsDict where
  train : List MetricObj
  val : List MetricObj
  test : List MetricObj
deriving DecidableEq

def cvMetrics : CvMetricsDict :=
  { train := deepcopyMetrics 7 train_val_metrics,
    val := train_val_metrics,
    test := test_metrics }

def phaseMetrics (p : String) : List MetricObj :=
  if p = "train" then cvMetrics.train
  else if p = "val" then cvMetrics.val
  else if p = "test" then cvMetrics.test
  else []

/-- The object identities reachable from one phase entry of the dict. -/
def phaseIds (p : String) : List Nat :=
  (phaseMetrics p).map (fun m => m.id)

/-- In-place mutation of every metric object of phase `p`, in a heap
keyed by object identity. -/
def mutatePhase (h : Nat → ℚ) (p : String) (v : ℚ) : Nat → ℚ :=
  fun i => if i ∈ phaseIds p then v else h i

/-- C5 counterexample: the `val` entry of the metrics dict is not a deep
copy of the shared two-metric template — it is the template itself,
sharing both object identities — refuting the claim that the `train` and
`val` metric lists are each deep copies of the template. -/
theorem C5_counterexample_val_is_template :
    cvMetrics.val = train_val_metrics ∧
    ¬ (∀ m ∈ cvMetrics.val, ∀ t ∈ train_val_metrics, m.id ≠ t.id) :=
  ⟨rfl, by decide⟩

/-- C5 (amended): only the `train` metric list is a deep copy of the
shared template (field-identical objects at fresh identities), while the
`val` list is the template object itself; the three phase entries are
nevertheless pairwise non-aliased — their identity sets are disjoint — so
mutating the metric objects of one phase leaves the metric objects of
every other phase unchanged. -/
theorem C5_metric_sets_nonaliased (p q : String)
    (hp : p ∈ ["train", "val", "test"]) (hq : q ∈ ["train", "val", "test"])
    (hpq : p ≠ q) :
    (cvMetrics.train.map (fun m => m.name) =
        train_val_metrics.map (fun m => m.name) ∧
      ∀ m ∈ cvMetrics.train, ∀ t ∈ train_val_metrics, m.id ≠ t.id) ∧
    cvMetrics.val = train_val_metrics ∧
    (∀ i ∈ phaseIds p, i ∉ phaseIds q) ∧
    (∀ (h : Nat → ℚ) (v : ℚ), ∀ m ∈ phaseMetrics q,
      mutatePhase h p v m.id = h m.id) := by
  have hdisj : ∀ i ∈ phaseIds p, i ∉ phaseIds q := by
    simp only [List.mem_cons, List.not_mem_nil, or_false] at hp hq
    rcases hp with rfl | rfl | rfl <;> rcases hq with rfl | rfl | rfl <;>
      first
        | exact absurd rfl hpq
        | decide
  refine ⟨⟨rfl, by decide⟩, rfl, hdisj, ?_⟩
  intro h v m hm
  have hnot : m.id ∉ phaseIds p := fun hmem =>
    hdisj m.id hmem (List.mem_map_of_mem _ hm)
  simp [mutatePhase, hnot]

/-- Witness for `C5_metric_sets_nonaliased`: mutating the `train` phase
objects leaves the value at the `uar` object of the `val` phase
(identity 1) unchanged. -/
theorem C5_metric_sets_nonaliased_witness :
    mutatePhase (fun _ => 0) "train" 5 1 = (0 : ℚ) := by
  have h := C5_metric_sets_nonaliased "train" "val"
    (by decide) (by decide) (by decide)
  exact h.2.2.2 (fun _ => 0) 5 ⟨1, "uar", "maximize", false⟩ (by decide)

/-! ## Grid orchestrator — `__main__` (experiment.py lines 222-274) -/

/-- The experiment configuration dict (`vars(...parse_args())`),
restricted to the fields the embedded code reads or writes; fields
consumed only by collaborators are visible to them through the oracles
receiving the whole record.  The dict is mutated in place, modelled by
threading the updated record. -/
structure Config where
  data_source : String
  dataloader_type : String
  task_type : String
  model_type : String
  lr : ℚ
  seed : Nat
  class_names : List Nat
  prev_classes : List Nat
  log_id : String
deriving DecidableEq

/-- `np.array(xs).mean()` / pandas `.mean()`: the arithmetic mean.  (For
an empty list numpy returns NaN; the theorems about this embedding
carry non-emptiness hypotheses wherever the source can hit that case.) -/
def npMean (xs : List ℚ) : ℚ := xs.sum / (xs.length : ℚ)

/-- The black-box collaborators of the grid loop: `hss_experiment`'s
returned scalar, and `TrainManager.train_test()`'s per-fold validation
and test metric series (per metric name, the list of per-fold values). -/
structure Oracles where
  hss_experiment : Config → ℚ
  train_test : Config → (String → List ℚ) × (String → List ℚ)

/-- The config mutations `cv_experiment` performs before handing the
config to the TrainManager (lines 176-181): `class_names` from
`task_type`, then `prev_classes = [0, 1]`. -/
def cv_mutate (c : Config) : Config :=
  let c1 :=
    if c.task_type = "regress" then { c with class_names := [0] }
    else { c with class_names := [0, 1] }
  { c1 with prev_classes := [0, 1] }

/-- Shallow embedding of `cv_experiment` (lines 171-205): mutates the
shared config, delegates fold iteration to the TrainManager oracle, and
returns `(val_cv_metrics['uar'].mean(), test_cv_metrics)` together with
the mutated config.  (The metrics dict it builds is modelled separately
as `cvMetrics`; the params/metrics file writes are external I/O.) -/
def cv_experiment
    (train_test : Config → (String → List ℚ) × (String → List ℚ))
    (c : Config) : Config × ℚ × (String → List ℚ) :=
  let c2 := cv_mutate c
  let p := train_test c2
  (c2, npMean (p.1 "uar"), p.2)

/-- A Python value that is either a list of floats or a dict of such
values — the two shapes the loop variable `uar_res` takes. -/
inductive PyVal where
  | list : List ℚ → PyVal
  | dict : List (String × PyVal) → PyVal

/-- Python attribute call `x.append(v)`: appends when `x` is a list and
raises `AttributeError` when `x` is a dict. -/
def PyVal.append : PyVal → ℚ → Except String PyVal
  | .dict _, _ => .error "AttributeError: dict object has no attribute append"
  | .list xs, v => .ok (.list (xs ++ [v]))

/-- Python subscript `x[k]` on a dict (`KeyError` when the key is
absent). -/
def PyVal.getItem : PyVal → String → Except String PyVal
  | .dict m, k =>
    match m.lookup k with
    | some v => .ok v
    | none => .error ("KeyError: " ++ k)
  | .list _, k => .error ("TypeError: " ++ k)

/-- Python subscript assignment `x[k] = v` on a dict (the loop only ever
writes keys it created, so key insertion is not modelled). -/
def PyVal.setItem : PyVal → String → PyVal → Except String PyVal
  | .dict m, k, v =>
    .ok (.dict (m.map (fun kv => if kv.1 = k then (kv.1, v) else kv)))
  | .list _, k, _ => .error ("TypeError: " ++ k)

/-- `np.array(x)` for a list-shaped value. -/
def PyVal.asList : PyVal → Except String (List ℚ)
  | .list xs => .ok xs
  | .dict _ => .error "TypeError"

def TEST_METRIC_NAMES : List String := ["uar", "recall_1", "specificity", "f1"]

def GRID_MODELS : List String :=
  ["vgg16", "vgg19", "resnet", "mobilenet", "resnext"]

def GRID_LRS : List ℚ := [1/10000, 1/100000]

/-- `uar_res = {metric_name: [] for metric_name in test_metric_names}`
(line 250). -/
def initUarRes : PyVal :=
  .dict (TEST_METRIC_NAMES.map (fun m => (m, .list [])))

/-- The accumulators `results` (dict of per-metric lists) and
`val_results`. -/
structure GridState where
  results : List (String × List ℚ)
  val_results : List ℚ
deriving DecidableEq

/-- `results = {metric_name: [] for metric_name in test_metric_names}`,
`val_results = []` (lines 237-238). -/
def gridInit : GridState :=
  { results := TEST_METRIC_NAMES.map (fun m => (m, [])), val_results := [] }

/-- `results[k].append(v)` (`KeyError` when `k` is absent). -/
def resAppend (rs : List (String × List ℚ)) (k : String) (v : ℚ) :
    Except String (List (String × List ℚ)) :=
  if (rs.lookup k).isSome then
    .ok (rs.map (fun kv => if kv.1 = k then (kv.1, kv.2 ++ [v]) else kv))
  else .error ("KeyError: " ++ k)

/-- The HSS seed loop (lines 251-254): `for seed in range(5):
train_conf['seed'] = seed; uar_res.append(hss_experiment(train_conf))`. -/
def hssSeedLoop (hss : Config → ℚ) (c : Config) (uar_res : PyVal) :
    List Nat → Except String (Config × PyVal)
  | [] => .ok (c, uar_res)
  | seed :: rest =>
    let c2 := { c with seed := seed }
    match uar_res.append (hss c2) with
    | .error e => .error e
    | .ok r => hssSeedLoop hss c2 r rest

/-- The CinC metric accumulation (lines 257-258):
`uar_res[metric_name].append(test_metrics[metric_name].mean())` for each
metric name; the in-place list append is modelled as
read-append-write. -/
def cincUpdate (testCv : String → List ℚ) (uar_res : PyVal) :
    List String → Except String PyVal
  | [] => .ok uar_res
  | m :: rest =>
    match uar_res.getItem m with
    | .error e => .error e
    | .ok l =>
      match l.append (npMean (testCv m)) with
      | .error e => .error e
      | .ok l2 =>
        match uar_res.setItem m l2 with
        | .error e => .error e
        | .ok u2 => cincUpdate testCv u2 rest

/-- The per-metric part of the cell epilogue (lines 264-265):
`results[m].append(np.array(uar_res[m]).mean())`. -/
def collectCell (uar_res : PyVal) (st : GridState) :
    List String → Except String GridState
  | [] => .ok st
  | m :: rest =>
    match uar_res.getItem m with
    | .error e => .error e
    | .ok v =>
      match v.asList with
      | .error e => .error e
      | .ok xs =>
        match resAppend st.results m (npMean xs) with
        | .error e => .error e
        | .ok rs => collectCell uar_res { st with results := rs } rest

/-- The cell epilogue (lines 263-265):
`val_results.append(np.array(val_uar_res).mean())`, then the per-metric
collection. -/
def finishCell (uar_res : PyVal) (val_uar_res : List ℚ) (st : GridState) :
    Except String GridState :=
  collectCell uar_res
    { st with val_results := st.val_results ++ [npMean val_uar_res] }
    TEST_METRIC_NAMES

/-- The learning-rate loop (lines 248-265).  An uncaught exception aborts
the whole grid; the error value carries the accumulator state at the
moment it was raised. -/
def lrLoop (o : Oracles) (c : Config) (st : GridState) :
    List ℚ → Except (String × GridState) (Config × GridState)
  | [] => .ok (c, st)
  | lr :: rest =>
    let c1 := { c with lr := lr }
    if c1.data_source = "HSS" then
      match hssSeedLoop o.hss_experiment c1 initUarRes (List.range 5) with
      | .error e => .error (e, st)
      | .ok (c2, u2) =>
        match finishCell u2 [] st with
        | .error e => .error (e, st)
        | .ok st2 => lrLoop o c2 st2 rest
    else if c1.data_source = "CinC" then
      let r := cv_experiment o.train_test c1
      match cincUpdate r.2.2 initUarRes TEST_METRIC_NAMES with
      | .error e => .error (e, st)
      | .ok u2 =>
        match finishCell u2 [r.2.1] st with
        | .error e => .error (e, st)
        | .ok st2 => lrLoop o r.1 st2 rest
    else
      match finishCell initUarRes [] st with
      | .error e => .error (e, st)
      | .ok st2 => lrLoop o c st2 rest

/-- The model loop (lines 239-265). -/
def modelLoop (o : Oracles) (c : Config) (st : GridState) :
    List String → Except (String × GridState) (Config × GridState)
  | [] => .ok (c, st)
  | model :: rest =>
    let c1 := { c with model_type := model }
    match lrLoop o c1 st GRID_LRS with
    | .error e => .error e
    | .ok (c2, st2) => modelLoop o c2 st2 rest

/-- The whole grid run: the final `results`/`val_results` state, plus the
uncaught exception if one was raised. -/
def runGrid (o : Oracles) (c : Config) : GridState × Option String :=
  match modelLoop o c gridInit GRID_MODELS with
  | .ok (_, st) => (st, none)
  | .error (e, st) => (st, some e)

/-- The config a CinC grid cell hands to the TrainManager: the entry
config with the cell's learning rate and the `cv_experiment` mutations
applied. -/
def cellConf (c : Config) (lr : ℚ) : Config := cv_mutate { c with lr := lr }

/-- The `results` dict with the canonical metric-name keys. -/
def mkRes (f : String → List ℚ) : List (String × List ℚ) :=
  TEST_METRIC_NAMES.map (fun m => (m, f m))

/-- `results[m]` as a pure read. -/
def resGet (rs : List (String × List ℚ)) (m : String) : List ℚ :=
  (rs.lookup m).getD []

/-- Aggregated test value appended by a CinC cell for model `model`,
learning rate `lr` and metric `m`: the mean of the singleton holding the
per-fold mean. -/
def cellTestVal (o : Oracles) (c : Config) (model : String) (lr : ℚ)
    (m : String) : ℚ :=
  npMean [npMean ((o.train_test (cellConf { c with model_type := model } lr)).2 m)]

/-- Validation value appended by a CinC cell. -/
def cellValVal (o : Oracles) (c : Config) (model : String) (lr : ℚ) : ℚ :=
  npMean [npMean ((o.train_test (cellConf { c with model_type := model } lr)).1 "uar")]

theorem npMean_singleton (x : ℚ) : npMean [x] = x := by
  simp [npMean]

theorem cellConf_data_source (c : Config) (lr : ℚ) :
    (cellConf c lr).data_source = c.data_source := by
  rcases c with ⟨ds, dlt, tt, mt, lr0, sd, cn, pc, lid⟩
  simp only [cellConf, cv_mutate]
  by_cases h : tt = "regress" <;> simp [h]

theorem cellConf_absorb (c : Config) (a b : ℚ) :
    cellConf (cellConf c a) b = cellConf c b := by
  rcases c with ⟨ds, dlt, tt, mt, lr0, sd, cn, pc, lid⟩
  simp only [cellConf, cv_mutate]
  by_cases h : tt = "regress" <;> simp [h]

theorem cellConf_model_absorb (c : Config) (a b : ℚ) (mdl : String) :
    cellConf { cellConf c a with model_type := mdl } b =
      cellConf { c with model_type := mdl } b := by
  rcases c with ⟨ds, dlt, tt, mt, lr0, sd, cn, pc, lid⟩
  simp only [cellConf, cv_mutate]
  by_cases h : tt = "regress" <;> simp [h]

theorem cincUpdate_names (testCv : String → List ℚ) :
    cincUpdate testCv initUarRes TEST_METRIC_NAMES =
      .ok (.dict (TEST_METRIC_NAMES.map
        (fun m => (m, .list [npMean (testCv m)])))) := by
  rfl

theorem collectCell_names (u f : String → List ℚ) (vs : List ℚ) :
    collectCell (.dict (TEST_METRIC_NAMES.map (fun m => (m, .list (u m)))))
      ⟨mkRes f, vs⟩ TEST_METRIC_NAMES =
      .ok ⟨mkRes (fun m => f m ++ [npMean (u m)]), vs⟩ := by
  rfl

theorem resGet_mkRes (g : String → List ℚ) (m : String)
    (hm : m ∈ TEST_METRIC_NAMES) : resGet (mkRes g) m = g m := by
  simp only [TEST_METRIC_NAMES, List.mem_cons, List.not_mem_nil,
    or_false] at hm
  rcases hm with rfl | rfl | rfl | rfl <;> rfl

theorem lrLoop_cinc (o : Oracles) (lrs : List ℚ) :
    ∀ (c : Config) (f : String → List ℚ) (vs : List ℚ),
      c.data_source = "CinC" →
      lrLoop o c ⟨mkRes f, vs⟩ lrs =
        .ok (lrs.foldl (fun c2 lr => cellConf c2 lr) c,
          ⟨mkRes (fun m => f m ++ lrs.map (fun lr =>
              npMean [npMean ((o.train_test (cellConf c lr)).2 m)])),
            vs ++ lrs.map (fun lr =>
              npMean [npMean ((o.train_test (cellConf c lr)).1 "uar")])⟩) := by
  induction lrs with
  | nil =>
    intro c f vs hds
    simp [lrLoop, mkRes]
  | cons lr rest ih =>
    intro c f vs hds
    have hc1 : ({ c with lr := lr } : Config).data_source = "CinC" := hds
    have hne : ¬ ({ c with lr := lr } : Config).data_source = "HSS" := by
      rw [hc1]; decide
    simp only [lrLoop, if_neg hne, if_pos hc1, cv_experiment,
      cincUpdate_names, finishCell, collectCell_names]
    have hcell : ∀ (c' : Config) (lr' : ℚ),
        cv_mutate { c' with lr := lr' } = cellConf c' lr' := fun _ _ => rfl
    simp only [hcell]
    rw [ih (cellConf c lr) _ _ (by rw [cellConf_data_source]; exact hds)]
    simp only [cellConf_absorb, List.foldl_cons, List.map_cons,
      List.append_assoc, List.singleton_append]

theorem modelLoop_cinc (o : Oracles) (models : List String) :
    ∀ (c : Config) (f : String → List ℚ) (vs : List ℚ),
      c.data_source = "CinC" →
      ∃ cEnd,
        modelLoop o c ⟨mkRes f, vs⟩ models =
          .ok (cEnd,
            ⟨mkRes (fun m => f m ++ models.flatMap (fun model =>
                GRID_LRS.map (fun lr =>
                  npMean [npMean
                    ((o.train_test
                      (cellConf { c with model_type := model } lr)).2 m)]))),
              vs ++ models.flatMap (fun model =>
                GRID_LRS.map (fun lr =>
                  npMean [npMean
                    ((o.train_test
                      (cellConf { c with model_type := model } lr)).1
                        "uar")]))⟩) := by
  induction models with
  | nil =>
    intro c f vs hds
    exact ⟨c, by simp [modelLoop, mkRes]⟩
  | cons model rest ih =>
    intro c f vs hds
    have hds1 : ({ c with model_type := model } : Config).data_source =
        "CinC" := hds
    have hlr := lrLoop_cinc o GRID_LRS { c with model_type := model } f vs hds1
    have hfold : GRID_LRS.foldl (fun c2 lr => cellConf c2 lr)
        { c with model_type := model } =
        cellConf { c with model_type := model } (1/100000) := by
      simp [GRID_LRS, cellConf_absorb]
    rw [hfold] at hlr
    have hds2 : (cellConf { c with model_type := model }
        ((1 : ℚ)/100000)).data_source = "CinC" := by
      rw [cellConf_data_source]; exact hds
    obtain ⟨cEnd, hrec⟩ := ih
      (cellConf { c with model_type := model } (1/100000))
      (fun m => f m ++ GRID_LRS.map (fun lr =>
        npMean [npMean ((o.train_test
          (cellConf { c with model_type := model } lr)).2 m)]))
      (vs ++ GRID_LRS.map (fun lr =>
        npMean [npMean ((o.train_test
          (cellConf { c with model_type := model } lr)).1 "uar")]))
      hds2
    refine ⟨cEnd, ?_⟩
    simp only [modelLoop]
    simp only [hlr]
    simp only [hrec]
    have hconv : ∀ (mdl2 : String) (lr : ℚ),
        cellConf { cellConf { c with model_type := model } ((1 : ℚ)/100000)
          with model_type := mdl2 } lr =
        cellConf { c with model_type := mdl2 } lr := by
      intro mdl2 lr
      rw [cellConf_model_absorb]
    simp only [hconv, List.flatMap_cons, List.append_assoc]

/-- The `AttributeError` message raised by `uar_res.append(...)` when
`uar_res` is a dict. -/
def attrErr : String := "AttributeError: dict object has no attribute append"

/-- The stub TrainManager and configuration of the spec §8 end-to-end
scenario: `{data_source: 'CinC', model_type: 'resnet', lr: 0.0001}` with
per-fold test metrics uar = [0.8, 0.9] over 2 folds. -/
def stubOracles : Oracles :=
  ⟨fun _ => 0, fun _ => (fun _ => [7/10],
    fun s => if s = "uar" then [8/10, 9/10] else [1/2])⟩

def stubCinCConf : Config :=
  ⟨"CinC", "normal", "classify", "resnet", 1/10000, 0, [], [], "log"⟩

/-- The grid state produced by a single grid cell started from empty
accumulators (the per-cell effect of lines 248-265). -/
def cellRun (o : Oracles) (c : Config) (lr : ℚ) : GridState :=
  match lrLoop o c ⟨mkRes (fun _ => []), []⟩ [lr] with
  | .ok (_, st) => st
  | .error (_, st) => st

theorem cellRun_cinc (o : Oracles) (c : Config) (lr : ℚ)
    (hds : c.data_source = "CinC") :
    cellRun o c lr =
      ⟨mkRes (fun m2 =>
          [npMean [npMean ((o.train_test (cellConf c lr)).2 m2)]]),
        [npMean [npMean ((o.train_test (cellConf c lr)).1 "uar")]]⟩ := by
  unfold cellRun
  rw [lrLoop_cinc o [lr] c (fun _ => []) [] hds]
  simp only [List.foldl_cons, List.foldl_nil, List.map_cons, List.map_nil,
    List.nil_append]

/-- C1 (amended): for every grid run with `data_source = 'CinC'` the run
finishes without an exception, every per-metric result sequence and the
validation sequence ends with length `|models| × |learning_rates| = 10`,
and the cell values appear in model-major, learning-rate-minor order
(`GRID_MODELS.flatMap` of `GRID_LRS.map`), each produced from the config
carrying that cell's model type and learning rate. -/
theorem C1_grid_result_lengths (o : Oracles) (c : Config)
    (hds : c.data_source = "CinC") :
    (runGrid o c).2 = none ∧
    (runGrid o c).1.val_results = GRID_MODELS.flatMap (fun model =>
      GRID_LRS.map (fun lr => cellValVal o c model lr)) ∧
    (runGrid o c).1.results = mkRes (fun m =>
      GRID_MODELS.flatMap (fun model =>
        GRID_LRS.map (fun lr => cellTestVal o c model lr m))) ∧
    (runGrid o c).1.val_results.length = 10 ∧
    ∀ m ∈ TEST_METRIC_NAMES,
      (resGet (runGrid o c).1.results m).length = 10 := by
  obtain ⟨cEnd, hrun⟩ := modelLoop_cinc o GRID_MODELS c (fun _ => []) [] hds
  have hinit : gridInit = (⟨mkRes (fun _ => []), []⟩ : GridState) := rfl
  have h2 : runGrid o c =
      (⟨mkRes (fun m => GRID_MODELS.flatMap (fun model =>
          GRID_LRS.map (fun lr => cellTestVal o c model lr m))),
        GRID_MODELS.flatMap (fun model =>
          GRID_LRS.map (fun lr => cellValVal o c model lr))⟩, none) := by
    unfold runGrid
    rw [hinit, hrun]
    simp only [cellTestVal, cellValVal, List.nil_append]
  have hlen10 : ∀ (g : String → ℚ → ℚ),
      (GRID_MODELS.flatMap (fun model => GRID_LRS.map (g model))).length =
        10 := by
    intro g
    simp [GRID_MODELS, GRID_LRS]
  refine ⟨by rw [h2], by rw [h2], by rw [h2], ?_, ?_⟩
  · rw [h2]
    exact hlen10 (fun model lr => cellValVal o c model lr)
  · intro m hm
    rw [h2]
    have : resGet (mkRes (fun m2 => GRID_MODELS.flatMap (fun model =>
        GRID_LRS.map (fun lr => cellTestVal o c model lr m2)))) m =
        GRID_MODELS.flatMap (fun model =>
          GRID_LRS.map (fun lr => cellTestVal o c model lr m)) :=
      resGet_mkRes _ m hm
    rw [this]
    exact hlen10 (fun model lr => cellTestVal o c model lr m)

/-- Witness for `C1_grid_result_lengths` at the stub TrainManager. -/
theorem C1_grid_result_lengths_witness :
    (runGrid stubOracles stubCinCConf).2 = none ∧
    (runGrid stubOracles stubCinCConf).1.val_results.length = 10 :=
  ⟨(C1_grid_result_lengths stubOracles stubCinCConf rfl).1,
    (C1_grid_result_lengths stubOracles stubCinCConf rfl).2.2.2.1⟩

/-- C1 counterexample: a grid run with `data_source = 'HSS'` (one of the
two data sources the orchestrator accepts) aborts on its very first cell
with `AttributeError`, so its collected result sequences end at length 0,
not 10 — the claim fails for HSS runs. -/
theorem C1_counterexample_hss_sequences_empty :
    (runGrid ⟨fun _ => 0, fun _ => (fun _ => [0], fun _ => [0])⟩
      ⟨"HSS", "normal", "classify", "vgg16", 1/10000, 0, [], [], "log"⟩).2 =
      some attrErr ∧
    resGet (runGrid ⟨fun _ => 0, fun _ => (fun _ => [0], fun _ => [0])⟩
      ⟨"HSS", "normal", "classify", "vgg16", 1/10000, 0, [], [], "log"⟩).1.results
      "uar" = [] ∧
    ¬ (resGet (runGrid ⟨fun _ => 0, fun _ => (fun _ => [0], fun _ => [0])⟩
      ⟨"HSS", "normal", "classify", "vgg16", 1/10000, 0, [], [], "log"⟩).1.results
      "uar").length = 10 :=
  ⟨rfl, rfl, by decide⟩

/-- C8: with `data_source = 'HSS'` the very first seed of the very first
grid cell calls `.append` on the dict `uar_res` and raises
`AttributeError` (the seed loop dies on its head element for any dict
accumulator), the whole grid run aborts with the initial accumulator
state, and no HSS grid cell ever completes or contributes a result: every
result sequence of the aborted state is empty. -/
theorem C8_hss_append_attribute_error (o : Oracles) (c : Config)
    (hds : c.data_source = "HSS") :
    (∀ (c2 : Config) (d : List (String × PyVal)),
      hssSeedLoop o.hss_experiment c2 (.dict d) (List.range 5) =
        .error attrErr) ∧
    runGrid o c = (gridInit, some attrErr) ∧
    (∀ m ∈ TEST_METRIC_NAMES, resGet gridInit.results m = []) ∧
    gridInit.val_results = [] := by
  have hseed : ∀ (c2 : Config) (d : List (String × PyVal)),
      hssSeedLoop o.hss_experiment c2 (.dict d) (List.range 5) =
        .error attrErr := fun c2 d => rfl
  refine ⟨hseed, ?_, by decide, rfl⟩
  unfold runGrid
  simp only [GRID_MODELS, modelLoop, GRID_LRS, lrLoop, initUarRes, hds,
    hseed, reduceIte]

/-- Witness for `C8_hss_append_attribute_error` at a concrete oracle and
configuration. -/
theorem C8_hss_append_attribute_error_witness :
    runGrid ⟨fun _ => 1, fun _ => (fun _ => [1], fun _ => [1])⟩
      ⟨"HSS", "ml", "classify", "resnet", 1/100, 3, [0], [0], "w"⟩ =
      (gridInit, some attrErr) :=
  (C8_hss_append_attribute_error
    ⟨fun _ => 1, fun _ => (fun _ => [1], fun _ => [1])⟩
    ⟨"HSS", "ml", "classify", "resnet", 1/100, 3, [0], [0], "w"⟩ rfl).2.1

/-- C4: in a CinC grid cell the aggregated test value recorded for metric
`m` equals the arithmetic mean (sum over length) of the TrainManager's
per-fold values of `m`, and the recorded validation value — the
`val_result` returned by `cv_experiment`, i.e.
`val_cv_metrics['uar'].mean()` — equals the mean of the per-fold
validation scores; in particular the §8 scenario (per-fold test
uar = [0.8, 0.9] over 2 folds) aggregates to uar = 0.85. -/
theorem C4_cv_mean_aggregation (o : Oracles) (c : Config) (lr : ℚ)
    (m : String) (hds : c.data_source = "CinC") (hm : m ∈ TEST_METRIC_NAMES)
    (hfolds : (o.train_test (cellConf c lr)).2 m ≠ [])
    (hval : (o.train_test (cellConf c lr)).1 "uar" ≠ []) :
    resGet (cellRun o c lr).results m =
      [((o.train_test (cellConf c lr)).2 m).sum /
        (((o.train_test (cellConf c lr)).2 m).length : ℚ)] ∧
    (cellRun o c lr).val_results =
      [((o.train_test (cellConf c lr)).1 "uar").sum /
        (((o.train_test (cellConf c lr)).1 "uar").length : ℚ)] ∧
    (cv_experiment o.train_test { c with lr := lr }).2.1 =
      npMean ((o.train_test (cellConf c lr)).1 "uar") ∧
    resGet (cellRun stubOracles stubCinCConf (1/10000)).results "uar" =
      [85/100] := by
  have hcell := cellRun_cinc o c lr hds
  refine ⟨?_, ?_, rfl, ?_⟩
  · rw [hcell, resGet_mkRes _ m hm, npMean_singleton]
    rfl
  · rw [hcell, npMean_singleton]
    rfl
  · rw [cellRun_cinc stubOracles stubCinCConf (1/10000) rfl,
      resGet_mkRes _ "uar" (by decide), npMean_singleton]
    norm_num [stubOracles, npMean]

/-- Witness for `C4_cv_mean_aggregation`: the §8 scenario itself. -/
theorem C4_cv_mean_aggregation_witness :
    resGet (cellRun stubOracles stubCinCConf (1/10000)).results "uar" =
      [85/100] :=
  (C4_cv_mean_aggregation stubOracles stubCinCConf (1/10000) "uar" rfl
    (by decide) (by decide) (by decide)).2.2.2
